import Mathlib

/-!
Verification development for the SpotifytoUG playlist synchroniser.

The Python sources are embedded shallowly:

* `SpotifyClient.get_playlist_tracks` (src/spotify_client.py) becomes
  `get_playlist_tracks`, a recursion over the list of pages returned by the
  paginated API (`results` / `sp.next(results) if results['next'] else None`).
* `UltimateGuitarClient.login` and `get_existing_playlists` (src/ug_client.py)
  become functions over small oracle records describing what the browser page
  shows (whether selectors render, element texts, ...).
* `PlaylistSyncer.sync_playlist` and `preview_sync` (src/syncer.py) become
  functions over a `SyncEnv` oracle describing the behaviour of every
  collaborator call.  Python `try ... except Exception: ...` is modelled in
  two layers: a body in the `Except Unit` monad that propagates the modelled
  raise points, and a wrapper that catches, exactly like the source.  The run
  also produces a trace of `SyncEvent`s so that theorems can speak about which
  collaborator calls were made and in what order.
-/

/-- The `item['track']` object of a Spotify playlist item: its `type`
discriminator plus the fields `get_playlist_tracks` reads. -/
structure TrackObj where
  type : String
  name : String
  artists : List String
  album : String
  id : String
  external_urls : String
deriving DecidableEq, Repr

/-- One element of `results['items']`; `track` is `none` when
`item['track']` is null. -/
structure PlayItem where
  track : Option TrackObj
deriving DecidableEq, Repr

/-- The track-info dictionary built by `get_playlist_tracks`:
name, comma-joined artists, album, spotify id, external urls. -/
structure Track where
  name : String
  artist : String
  album : String
  spotify_id : String
  external_urls : String
deriving DecidableEq, Repr

/-- Builds the `track_info` dict of src/spotify_client.py lines 50-56:
artists are joined with a comma-space separator in source order. -/
def trackInfoOf (t : TrackObj) : Track :=
  { name := t.name
    artist := String.intercalate ", " t.artists
    album := t.album
    spotify_id := t.id
    external_urls := t.external_urls }

/-- The inner `for item in results['items']` loop of `get_playlist_tracks`:
an item is converted and appended iff `item['track']` is non-null and its
`type` equals `'track'`. -/
def processItems : List PlayItem → List Track
  | [] => []
  | item :: rest =>
    match item.track with
    | some t =>
      if t.type = "track" then trackInfoOf t :: processItems rest
      else processItems rest
    | none => processItems rest

/-- `SpotifyClient.get_playlist_tracks`: the `while results:` pagination loop.
The paginated listing is modelled as the list of its pages; the loop body
processes the current page and moves to the continuation
(`sp.next(results) if results['next'] else None`). -/
def get_playlist_tracks : List (List PlayItem) → List Track
  | [] => []
  | page :: rest => processItems page ++ get_playlist_tracks rest

/-- The per-item conversion as a partial function: `some` exactly when the
item is a non-null `'track'`-typed item. -/
def itemToTrack (i : PlayItem) : Option Track :=
  match i.track with
  | some t => if t.type = "track" then some (trackInfoOf t) else none
  | none => none

/-- Whether a playlist item passes the media-type filter of
`get_playlist_tracks`. -/
def itemIsTrack (i : PlayItem) : Bool :=
  match i.track with
  | some t => t.type = "track"
  | none => false

/-- Extraction applied to an item already known to pass the filter
(junk value on a filtered-out item). -/
def itemTrackValue (i : PlayItem) : Track :=
  match i.track with
  | some t => trackInfoOf t
  | none => { name := "", artist := "", album := "", spotify_id := "", external_urls := "" }

/-- Oracle for one run of `UltimateGuitarClient.login` (src/ug_client.py
lines 54-93): whether navigation raises, whether the credential form renders
within the bounded wait, whether the post-login marker
(`.js-header-user-menu`) appears within its bounded wait, and whether an
inline `.error-message` element is present. -/
structure LoginEnv where
  gotoRaises : Bool
  formAppears : Bool
  markerAppears : Bool
  errorPresent : Bool
deriving DecidableEq, Repr

/-- `UltimateGuitarClient.login`.  A navigation error or a timeout of the
credential-form wait raises and is caught by the outer handler, returning
`false`; after submitting, the marker appearing returns `true`; a marker
timeout falls to the inner handler which inspects the error element (for
logging only) and returns `false` either way. -/
def ug_login (e : LoginEnv) : Bool :=
  if e.gotoRaises then false
  else if e.formAppears = false then false
  else if e.markerAppears then true
  else false

/-- One playlist-name element on the playlists page; `text` is the result of
`text_content()` (`none` models a null text). -/
structure UGElem where
  text : Option String
deriving DecidableEq, Repr

/-- Oracle for one run of `UltimateGuitarClient.get_existing_playlists`:
whether navigation raises, whether the wait for a playlist entry times out,
and the playlist-name elements found on the page. -/
structure PlaylistsPageEnv where
  gotoRaises : Bool
  waitTimesOut : Bool
  elements : List UGElem
deriving DecidableEq, Repr

/-- `UltimateGuitarClient.get_existing_playlists` (src/ug_client.py lines
210-237): any raise (navigation error, wait timeout) is caught and yields the
empty list; otherwise each element's text is read and appended stripped, but
only when the text is truthy (`if name:`), so null and empty-string texts are
skipped. -/
def get_existing_playlists (e : PlaylistsPageEnv) : List String :=
  if e.gotoRaises then []
  else if e.waitTimesOut then []
  else
    e.elements.filterMap fun el =>
      match el.text with
      | some s => if s = "" then none else some s.trim
      | none => none

/-- Outcome of one `ug_client.search_and_add_song` call as seen by the attach
loop of `sync_playlist`: it returned `True`, returned `False`, or raised. -/
inductive AttachOutcome
  | success
  | failure
  | raised
deriving DecidableEq, Repr

/-- Events of a `sync_playlist` run, in the order the collaborator calls are
made.  `searchAndAddCall` records song, artist, target playlist and outcome;
`sleepCall` records an `asyncio.sleep` with its duration in seconds. -/
inductive SyncEvent
  | fetchInfo
  | fetchTracks
  | browserStart
  | loginCall
  | listPlaylistsCall
  | createPlaylistCall (name : String)
  | searchAndAddCall (song : String) (artist : String) (playlist : String) (outcome : AttachOutcome)
  | sleepCall (seconds : Nat)
deriving DecidableEq, Repr

/-- Whether an event is an `asyncio.sleep` call. -/
def isSleepEvt : SyncEvent → Bool
  | SyncEvent.sleepCall _ => true
  | _ => false

/-- Whether an event is a `search_and_add_song` call. -/
def isAttachEvt : SyncEvent → Bool
  | SyncEvent.searchAndAddCall _ _ _ _ => true
  | _ => false

/-- Whether an event is a `search_and_add_song` call that returned `True`. -/
def isSuccessAttachEvt : SyncEvent → Bool
  | SyncEvent.searchAndAddCall _ _ _ AttachOutcome.success => true
  | _ => false

/-- Whether an event is a `create_playlist` call. -/
def isCreateEvt : SyncEvent → Bool
  | SyncEvent.createPlaylistCall _ => true
  | _ => false

/-- The song and artist of an attach event, `none` on every other event. -/
def attachEvtSong : SyncEvent → Option (String × String)
  | SyncEvent.searchAndAddCall s a _ _ => some (s, a)
  | _ => none

/-- The `for i, track in enumerate(tracks, 1)` attach loop of `sync_playlist`
(src/syncer.py lines 94-115).  `af i` is the outcome of the attach attempt
for the track at zero-based position `i`.  Returns
(successful_adds, failed_adds, events).  A `True` return increments
`successful_adds` and sleeps 2; a `False` return increments `failed_adds`
and sleeps 2; a raise is caught by the per-track handler, increments
`failed_adds`, and skips the sleep (the `await asyncio.sleep(2)` sits inside
the `try`, after the increment). -/
def attachLoop (af : Nat → AttachOutcome) (pl : String) : Nat → List Track → Nat × Nat × List SyncEvent
  | _, [] => (0, 0, [])
  | i, t :: rest =>
    let r := attachLoop af pl (i + 1) rest
    match af i with
    | AttachOutcome.success =>
      (r.1 + 1, r.2.1, SyncEvent.searchAndAddCall t.name t.artist pl AttachOutcome.success ::
        SyncEvent.sleepCall 2 :: r.2.2)
    | AttachOutcome.failure =>
      (r.1, r.2.1 + 1, SyncEvent.searchAndAddCall t.name t.artist pl AttachOutcome.failure ::
        SyncEvent.sleepCall 2 :: r.2.2)
    | AttachOutcome.raised =>
      (r.1, r.2.1 + 1, SyncEvent.searchAndAddCall t.name t.artist pl AttachOutcome.raised :: r.2.2)

/-- The event block emitted for each track, concatenated in source order: one
attach call, followed by a 2-second sleep exactly when the attempt did not
raise. -/
def perTrackEvents (af : Nat → AttachOutcome) (pl : String) : Nat → List Track → List SyncEvent
  | _, [] => []
  | i, t :: rest =>
    (SyncEvent.searchAndAddCall t.name t.artist pl (af i) ::
      (if af i = AttachOutcome.raised then [] else [SyncEvent.sleepCall 2])) ++
      perTrackEvents af pl (i + 1) rest

/-- Number of attach attempts among the tracks that do not raise. -/
def countNonRaised (af : Nat → AttachOutcome) : Nat → List Track → Nat
  | _, [] => 0
  | i, _ :: rest =>
    (if af i = AttachOutcome.raised then 0 else 1) + countNonRaised af (i + 1) rest

/-- A value of the playlist-info dictionary (string or integer fields). -/
inductive JVal
  | s (v : String)
  | n (v : Nat)
deriving DecidableEq, Repr

/-- Oracle for one `sync_playlist` / `preview_sync` run: the behaviour of
every collaborator call.  `infoRaises` / `tracksRaises` model the Spotify
reads raising (spotipy errors propagate out of `SpotifyClient`);
`pages` is the paginated listing read by `get_playlist_tracks`;
`browserStartRaises` models `start_browser` raising on context entry;
`loginResult` is what `ug_client.login()` returns (it catches internally);
`existingPlaylists` is what `get_existing_playlists` returns;
`createResult` is what `create_playlist` returns; `attach i` is the outcome
of the attach attempt for track position `i`. -/
structure SyncEnv where
  infoRaises : Bool
  infoName : String
  infoDescription : String
  infoTotal : Nat
  infoOwner : String
  infoUrls : String
  tracksRaises : Bool
  pages : List (List PlayItem)
  browserStartRaises : Bool
  loginResult : Bool
  existingPlaylists : List String
  createResult : Bool
  attach : Nat → AttachOutcome

/-- The dictionary returned by `SpotifyClient.get_playlist_info` on success
(src/spotify_client.py lines 80-87). -/
def playlistInfoDict (env : SyncEnv) : List (String × JVal) :=
  [("name", JVal.s env.infoName),
   ("description", JVal.s env.infoDescription),
   ("total_tracks", JVal.n env.infoTotal),
   ("owner", JVal.s env.infoOwner),
   ("external_urls", JVal.s env.infoUrls)]

/-- Resolution of the target playlist name, `target_playlist_name or
playlist_info['name']`: Python `or` falls through on `None` and on the empty
string. -/
def resolveTarget : Option String → String → String
  | none, n => n
  | some t, n => if t = "" then n else t

/-- The body of `sync_playlist` inside its outer `try` (src/syncer.py lines
47-123), with its modelled raise points propagated in `Except Unit`, paired
with the trace of collaborator calls made before returning or raising.
Mirrors the source order: fetch info, fetch tracks, resolve the target name,
start the browser, login (abort on `False`), list existing playlists, create
the target playlist only when the resolved name is not in the listing (abort
on creation failure), then run the attach loop and return
`successful_adds > 0`. -/
def syncBody (env : SyncEnv) (target : Option String) : List SyncEvent × Except Unit Bool :=
  if env.infoRaises then ([SyncEvent.fetchInfo], Except.error ())
  else if env.tracksRaises then
    ([SyncEvent.fetchInfo, SyncEvent.fetchTracks], Except.error ())
  else
    let tracks := get_playlist_tracks env.pages
    let ugName := resolveTarget target env.infoName
    if env.browserStartRaises then
      ([SyncEvent.fetchInfo, SyncEvent.fetchTracks, SyncEvent.browserStart], Except.error ())
    else if env.loginResult = false then
      ([SyncEvent.fetchInfo, SyncEvent.fetchTracks, SyncEvent.browserStart,
        SyncEvent.loginCall], Except.ok false)
    else if ugName ∈ env.existingPlaylists then
      let r := attachLoop env.attach ugName 0 tracks
      ([SyncEvent.fetchInfo, SyncEvent.fetchTracks, SyncEvent.browserStart,
        SyncEvent.loginCall, SyncEvent.listPlaylistsCall] ++ r.2.2,
       Except.ok (decide (0 < r.1)))
    else if env.createResult then
      let r := attachLoop env.attach ugName 0 tracks
      ([SyncEvent.fetchInfo, SyncEvent.fetchTracks, SyncEvent.browserStart,
        SyncEvent.loginCall, SyncEvent.listPlaylistsCall,
        SyncEvent.createPlaylistCall ugName] ++ r.2.2,
       Except.ok (decide (0 < r.1)))
    else
      ([SyncEvent.fetchInfo, SyncEvent.fetchTracks, SyncEvent.browserStart,
        SyncEvent.loginCall, SyncEvent.listPlaylistsCall,
        SyncEvent.createPlaylistCall ugName], Except.ok false)

/-- `PlaylistSyncer.sync_playlist`: the outer `except Exception` handler
catches any raise of the body and returns `False`. -/
def sync_playlist (env : SyncEnv) (target : Option String) : Bool :=
  match (syncBody env target).2 with
  | Except.ok b => b
  | Except.error _ => false

/-- The trace of collaborator calls made by a `sync_playlist` run. -/
def syncTrace (env : SyncEnv) (target : Option String) : List SyncEvent :=
  (syncBody env target).1

/-- Number of tracks successfully attached during a `sync_playlist` run. -/
def attachedCount (env : SyncEnv) (target : Option String) : Nat :=
  (syncTrace env target).countP isSuccessAttachEvt

/-- The body of `preview_sync` inside its `try` (src/syncer.py lines
143-162): fetch the playlist info, then the tracks, and return the pair;
either fetch raising propagates. -/
def previewBody (env : SyncEnv) : Except Unit (List (String × JVal) × List Track) :=
  if env.infoRaises then Except.error ()
  else if env.tracksRaises then Except.error ()
  else Except.ok (playlistInfoDict env, get_playlist_tracks env.pages)

/-- `PlaylistSyncer.preview_sync`: the `except Exception` handler catches any
raise of the body and returns `({}, [])`. -/
def preview_sync (env : SyncEnv) : List (String × JVal) × List Track :=
  match previewBody env with
  | Except.ok r => r
  | Except.error _ => ([], [])

/-- A sample `item['track']` object used to instantiate theorems. -/
def sampleObj : TrackObj :=
  { type := "track", name := "Song A", artists := ["Artist X"], album := "Al",
    id := "1", external_urls := "u1" }

/-- A sample one-page listing holding one track item. -/
def samplePages : List (List PlayItem) := [[{ track := some sampleObj }]]

/-- A sample track-info record. -/
def sampleTrack : Track :=
  { name := "Song A", artist := "Artist X", album := "Al", spotify_id := "1",
    external_urls := "u1" }

/-- A sample environment: every collaborator call behaves, the target
playlist already exists, every attach attempt succeeds. -/
def envA : SyncEnv :=
  { infoRaises := false, infoName := "Road Trip", infoDescription := "",
    infoTotal := 1, infoOwner := "o", infoUrls := "u", tracksRaises := false,
    pages := samplePages, browserStartRaises := false, loginResult := true,
    existingPlaylists := ["Road Trip"], createResult := true,
    attach := fun _ => AttachOutcome.success }

/-! ### Helper lemmas -/

/-- Each loop iteration increments exactly one counter, so the two counters
sum to the number of tracks iterated. -/
theorem attachLoop_counter_sum (af : Nat → AttachOutcome) (pl : String)
    (ts : List Track) : ∀ i : Nat,
    (attachLoop af pl i ts).1 + (attachLoop af pl i ts).2.1 = ts.length := by
  induction ts with
  | nil => intro i; rfl
  | cons t rest ih =>
    intro i
    have h2 := ih (i + 1)
    cases h : af i <;> simp [attachLoop, h] <;> omega

/-- The event list of the attach loop is the per-track blocks concatenated in
source order. -/
theorem attachLoop_events (af : Nat → AttachOutcome) (pl : String)
    (ts : List Track) : ∀ i : Nat,
    (attachLoop af pl i ts).2.2 = perTrackEvents af pl i ts := by
  induction ts with
  | nil => intro i; rfl
  | cons t rest ih =>
    intro i
    cases h : af i <;> simp [attachLoop, perTrackEvents, h, ih (i + 1)]

/-- The succeeded counter equals the number of successful attach events in
the loop trace. -/
theorem attachLoop_success_count (af : Nat → AttachOutcome) (pl : String)
    (ts : List Track) : ∀ i : Nat,
    ((attachLoop af pl i ts).2.2).countP isSuccessAttachEvt = (attachLoop af pl i ts).1 := by
  induction ts with
  | nil => intro i; rfl
  | cons t rest ih =>
    intro i
    cases h : af i <;>
      simp [attachLoop, h, List.countP_cons, isSuccessAttachEvt, ih (i + 1)]

/-- The attach events of the loop trace are exactly the source tracks, in
source order. -/
theorem attachLoop_songs (af : Nat → AttachOutcome) (pl : String)
    (ts : List Track) : ∀ i : Nat,
    ((attachLoop af pl i ts).2.2).filterMap attachEvtSong =
      ts.map fun t => (t.name, t.artist) := by
  induction ts with
  | nil => intro i; rfl
  | cons t rest ih =>
    intro i
    cases h : af i <;> simp [attachLoop, h, attachEvtSong, ih (i + 1)]

/-- The loop trace never contains a `create_playlist` call. -/
theorem attachLoop_no_create (af : Nat → AttachOutcome) (pl : String)
    (ts : List Track) : ∀ i : Nat,
    ((attachLoop af pl i ts).2.2).countP isCreateEvt = 0 := by
  induction ts with
  | nil => intro i; rfl
  | cons t rest ih =>
    intro i
    cases h : af i <;> simp [attachLoop, h, List.countP_cons, isCreateEvt, ih (i + 1)]

/-- The number of sleep events in the loop trace is the number of attach
attempts that did not raise. -/
theorem attachLoop_sleep_count (af : Nat → AttachOutcome) (pl : String)
    (ts : List Track) : ∀ i : Nat,
    ((attachLoop af pl i ts).2.2).countP isSleepEvt = countNonRaised af i ts := by
  induction ts with
  | nil => intro i; rfl
  | cons t rest ih =>
    intro i
    cases h : af i <;>
      simp [attachLoop, countNonRaised, h, List.countP_cons, isSleepEvt, ih (i + 1)] <;>
      omega

/-- The inner item loop is the partial map `itemToTrack` over the page. -/
theorem processItems_eq_filterMap (items : List PlayItem) :
    processItems items = items.filterMap itemToTrack := by
  induction items with
  | nil => rfl
  | cons item rest ih =>
    cases h : item.track with
    | none => simp [processItems, itemToTrack, h, ih]
    | some t =>
      by_cases ht : t.type = "track" <;> simp [processItems, itemToTrack, h, ht, ih]

/-- Collecting the truthy element texts stripped is the same as keeping
exactly the elements with a present, non-empty text and mapping each to its
trimmed text. -/
theorem filterMap_texts_eq_filter_map (l : List UGElem) :
    (l.filterMap fun el =>
      match el.text with
      | some s => if s = "" then none else some s.trim
      | none => none) =
    (l.filter fun el =>
      match el.text with
      | some s => !(s == "")
      | none => false).map fun el => (el.text.getD "").trim := by
  induction l with
  | nil => rfl
  | cons el rest ih =>
    cases h : el.text with
    | none => simp [List.filterMap_cons, List.filter_cons, h, ih]
    | some s =>
      by_cases hs : s = "" <;>
        simp [List.filterMap_cons, List.filter_cons, h, hs, ih]

/-! ### Claims -/

/-- C3: the pagination loop of `get_playlist_tracks` follows the continuation
until exhausted and returns exactly the track items of the source listing,
converted and concatenated in source order — the same list as the partial map
of the per-item conversion over the flattened listing, so nothing is
duplicated or lost at page boundaries — and `preview_sync` returns this very
list whenever the two fetches do not raise. -/
theorem spotify_pagination_concat :
    (∀ pages : List (List PlayItem),
      get_playlist_tracks pages = (pages.flatten).filterMap itemToTrack) ∧
    (∀ env : SyncEnv, env.infoRaises = false → env.tracksRaises = false →
      (preview_sync env).2 = get_playlist_tracks env.pages) := by
  constructor
  · intro pages
    induction pages with
    | nil => rfl
    | cons p rest ih =>
      simp [get_playlist_tracks, List.flatten, List.filterMap_append,
        processItems_eq_filterMap, ih]
  · intro env h1 h2
    simp [preview_sync, previewBody, h1, h2]

/-- Witness for C3 at a concrete environment. -/
theorem spotify_pagination_concat_witness :
    (preview_sync envA).2 = get_playlist_tracks envA.pages :=
  spotify_pagination_concat.2 envA rfl rfl

/-- C7: an item whose media type is not the string `track` (or whose track
object is null) is excluded by `get_playlist_tracks`, and every item whose
media type is `track` is included: the per-page processing equals filtering
on the media-type test and converting the survivors. -/
theorem non_track_items_excluded :
    ∀ items : List PlayItem,
      processItems items = (items.filter itemIsTrack).map itemTrackValue := by
  intro items
  induction items with
  | nil => rfl
  | cons item rest ih =>
    cases h : item.track with
    | none => simp [processItems, itemIsTrack, List.filter_cons, h, ih]
    | some t =>
      by_cases ht : t.type = "track" <;>
        simp [processItems, itemIsTrack, itemTrackValue, List.filter_cons, h, ht, ih]

/-- C4 counterexample: for a single track whose attach attempt raises, the
attach loop emits no sleep at all, so the inter-request delay is not waited
after every track — the `await asyncio.sleep(2)` sits inside the `try`, after
the increment, and the raise jumps straight to the handler. -/
theorem attach_delay_counterexample :
    ((attachLoop (fun _ => AttachOutcome.raised) "Road Trip" 0
        [sampleTrack]).2.2).countP isSleepEvt ≠
      ([sampleTrack] : List Track).length := by
  decide

/-- C4 amended: the loop trace is, per track in source order, one attach call
followed by a 2-second sleep exactly when the attempt did not raise; in
particular the number of sleeps is the number of non-raising attempts, not
the number of tracks. -/
theorem attach_delay_skipped_on_raise :
    ∀ (af : Nat → AttachOutcome) (pl : String) (i : Nat) (ts : List Track),
      (attachLoop af pl i ts).2.2 = perTrackEvents af pl i ts ∧
      ((attachLoop af pl i ts).2.2).countP isSleepEvt = countNonRaised af i ts :=
  fun af pl i ts => ⟨attachLoop_events af pl ts i, attachLoop_sleep_count af pl ts i⟩

/-- C8 counterexample: an element whose text is the empty string is skipped
by the `if name:` guard, so the result is not the trimmed text of every
playlist name element. -/
theorem playlists_empty_text_counterexample :
    get_existing_playlists
        { gotoRaises := false, waitTimesOut := false, elements := [{ text := some "" }] } ≠
      ([{ text := some "" }] : List UGElem).map fun el => (el.text.getD "").trim := by
  decide

/-- C8 amended: a timed-out wait or a navigation error yields the empty list
rather than a failure; otherwise the result is, in order, the trimmed text of
every playlist name element whose text is present and non-empty (elements
with null or empty text are skipped). -/
theorem get_existing_playlists_trimmed :
    ∀ e : PlaylistsPageEnv,
      (e.waitTimesOut = true → get_existing_playlists e = []) ∧
      (e.gotoRaises = true → get_existing_playlists e = []) ∧
      (e.gotoRaises = false → e.waitTimesOut = false →
        get_existing_playlists e =
          (e.elements.filter fun el =>
              match el.text with
              | some s => !(s == "")
              | none => false).map fun el => (el.text.getD "").trim) := by
  intro e
  refine ⟨?_, ?_, ?_⟩
  · intro h
    cases hg : e.gotoRaises <;> simp [get_existing_playlists, hg, h]
  · intro h
    simp [get_existing_playlists, h]
  · intro hg hw
    simp [get_existing_playlists, hg, hw, filterMap_texts_eq_filter_map]

/-- Witness for the amended C8 at concrete pages: a timed-out wait, and a
page with one whitespace-padded name. -/
theorem get_existing_playlists_trimmed_witness :
    (get_existing_playlists
        { gotoRaises := false, waitTimesOut := true, elements := [] } = []) ∧
    (get_existing_playlists
        { gotoRaises := false, waitTimesOut := false, elements := [{ text := some " A " }] } =
      (([{ text := some " A " }] : List UGElem).filter fun el =>
          match el.text with
          | some s => !(s == "")
          | none => false).map fun el => (el.text.getD "").trim) :=
  ⟨(get_existing_playlists_trimmed
      { gotoRaises := false, waitTimesOut := true, elements := [] }).1 rfl,
   (get_existing_playlists_trimmed
      { gotoRaises := false, waitTimesOut := false, elements := [{ text := some " A " }] }).2.2
      rfl rfl⟩

/-- C6: when the credential form or the post-login marker never appears
within the bounded wait `ug_login` returns failure, and any run in which
login returns failure aborts the sync with a failed result: the trace stops
at the login call, so no attach attempt is made and the only source-service
calls are the playlist-info and track fetches that happened before login. -/
theorem login_failure_aborts_sync :
    (∀ le : LoginEnv, le.formAppears = false ∨ le.markerAppears = false →
      ug_login le = false) ∧
    (∀ (env : SyncEnv) (t : Option String),
      env.infoRaises = false → env.tracksRaises = false →
      env.browserStartRaises = false → env.loginResult = false →
      sync_playlist env t = false ∧
      syncTrace env t = [SyncEvent.fetchInfo, SyncEvent.fetchTracks,
        SyncEvent.browserStart, SyncEvent.loginCall] ∧
      (syncTrace env t).countP isAttachEvt = 0) := by
  constructor
  · intro le h
    cases hg : le.gotoRaises <;> cases hf : le.formAppears <;>
      cases hm : le.markerAppears <;> simp_all [ug_login]
  · intro env t h1 h2 h3 h4
    refine ⟨?_, ?_, ?_⟩ <;>
      simp [sync_playlist, syncTrace, syncBody, h1, h2, h3, h4,
        List.countP_cons, isAttachEvt]

/-- Witness for C6: a login page whose credential form never renders, and a
run whose login returns failure. -/
theorem login_failure_aborts_sync_witness :
    ug_login { gotoRaises := false, formAppears := false, markerAppears := false, errorPresent := false } = false ∧
    (sync_playlist { envA with loginResult := false } none = false ∧
      syncTrace { envA with loginResult := false } none = [SyncEvent.fetchInfo,
        SyncEvent.fetchTracks, SyncEvent.browserStart, SyncEvent.loginCall] ∧
      (syncTrace { envA with loginResult := false } none).countP isAttachEvt = 0) :=
  ⟨login_failure_aborts_sync.1
      { gotoRaises := false, formAppears := false, markerAppears := false, errorPresent := false }
      (Or.inl rfl),
   login_failure_aborts_sync.2 { envA with loginResult := false } none rfl rfl rfl rfl⟩

/-- C1: the attach loop processes every track, in source order — the attach
events of the loop trace are exactly the source tracks — each iteration
increments exactly one counter so the two counters sum to the track count
whatever the mix of failures and raises, and no per-track outcome makes the
sync body raise once the setup phase has succeeded. -/
theorem attach_loop_processes_all_tracks :
    (∀ (af : Nat → AttachOutcome) (pl : String) (i : Nat) (ts : List Track),
      (attachLoop af pl i ts).1 + (attachLoop af pl i ts).2.1 = ts.length ∧
      ((attachLoop af pl i ts).2.2).filterMap attachEvtSong =
        ts.map fun t => (t.name, t.artist)) ∧
    (∀ (env : SyncEnv) (t : Option String),
      env.infoRaises = false → env.tracksRaises = false →
      env.browserStartRaises = false →
      (syncBody env t).2 ≠ Except.error ()) := by
  constructor
  · intro af pl i ts
    exact ⟨attachLoop_counter_sum af pl ts i, attachLoop_songs af pl ts i⟩
  · intro env t h1 h2 h3
    by_cases hl : env.loginResult = false
    · simp [syncBody, h1, h2, h3, hl]
    · by_cases hm : resolveTarget t env.infoName ∈ env.existingPlaylists
      · simp [syncBody, h1, h2, h3, hl, hm]
      · by_cases hc : env.createResult <;>
          simp [syncBody, h1, h2, h3, hl, hm, hc]

/-- Witness for C1: the body does not raise in a run with a failing and a
raising attach attempt. -/
theorem attach_loop_processes_all_tracks_witness :
    (syncBody { envA with attach := fun _ => AttachOutcome.raised } none).2 ≠
      Except.error () :=
  attach_loop_processes_all_tracks.2
    { envA with attach := fun _ => AttachOutcome.raised } none rfl rfl rfl

/-- C2: `sync_playlist` reports success exactly when at least one attach
attempt returned `True`; in particular a run whose source playlist yields no
tracks returns a failed result even though no per-track error occurred. -/
theorem sync_success_iff_track_attached :
    ∀ (env : SyncEnv) (t : Option String),
      (sync_playlist env t = true ↔ 0 < attachedCount env t) ∧
      (get_playlist_tracks env.pages = [] → sync_playlist env t = false) := by
  intro env t
  by_cases h1 : env.infoRaises
  · constructor
    · simp [sync_playlist, syncBody, h1, attachedCount, syncTrace,
        List.countP_cons, isSuccessAttachEvt]
    · intro _
      simp [sync_playlist, syncBody, h1]
  · by_cases h2 : env.tracksRaises
    · constructor
      · simp [sync_playlist, syncBody, h1, h2, attachedCount, syncTrace,
          List.countP_cons, isSuccessAttachEvt]
      · intro _
        simp [sync_playlist, syncBody, h1, h2]
    · by_cases h3 : env.browserStartRaises
      · constructor
        · simp [sync_playlist, syncBody, h1, h2, h3, attachedCount, syncTrace,
            List.countP_cons, isSuccessAttachEvt]
        · intro _
          simp [sync_playlist, syncBody, h1, h2, h3]
      · by_cases hl : env.loginResult = false
        · constructor
          · simp [sync_playlist, syncBody, h1, h2, h3, hl, attachedCount, syncTrace,
              List.countP_cons, isSuccessAttachEvt]
          · intro _
            simp [sync_playlist, syncBody, h1, h2, h3, hl]
        · by_cases hm : resolveTarget t env.infoName ∈ env.existingPlaylists
          · constructor
            · simp [sync_playlist, syncBody, h1, h2, h3, hl, hm, attachedCount,
                syncTrace, List.countP_append, List.countP_cons, isSuccessAttachEvt,
                attachLoop_success_count]
            · intro hz
              simp [sync_playlist, syncBody, h1, h2, h3, hl, hm, hz, attachLoop]
          · by_cases hc : env.createResult
            · constructor
              · simp [sync_playlist, syncBody, h1, h2, h3, hl, hm, hc, attachedCount,
                  syncTrace, List.countP_append, List.countP_cons, isSuccessAttachEvt,
                  attachLoop_success_count]
              · intro hz
                simp [sync_playlist, syncBody, h1, h2, h3, hl, hm, hc, hz, attachLoop]
            · constructor
              · simp [sync_playlist, syncBody, h1, h2, h3, hl, hm, hc, attachedCount,
                  syncTrace, List.countP_cons, isSuccessAttachEvt]
              · intro _
                simp [sync_playlist, syncBody, h1, h2, h3, hl, hm, hc]

/-- Witness for C2: an empty source playlist yields a failed sync. -/
theorem sync_success_iff_track_attached_witness :
    sync_playlist { envA with pages := [] } none = false :=
  (sync_success_iff_track_attached { envA with pages := [] } none).2 rfl

/-- C5: once the setup phase has reached the playlist listing, a resolved
target name already present in the listing (by exact string equality) means
no `create_playlist` call is made; an absent name means exactly one
`create_playlist` call; and a creation failure aborts the sync with a failed
result and no attach attempt. -/
theorem sync_no_recreate_existing :
    ∀ (env : SyncEnv) (t : Option String),
      env.infoRaises = false → env.tracksRaises = false →
      env.browserStartRaises = false → env.loginResult = true →
      ((resolveTarget t env.infoName ∈ env.existingPlaylists →
        (syncTrace env t).countP isCreateEvt = 0) ∧
       (resolveTarget t env.infoName ∉ env.existingPlaylists →
        (syncTrace env t).countP isCreateEvt = 1) ∧
       (resolveTarget t env.infoName ∉ env.existingPlaylists →
        env.createResult = false →
        sync_playlist env t = false ∧ (syncTrace env t).countP isAttachEvt = 0)) := by
  intro env t h1 h2 h3 h4
  refine ⟨?_, ?_, ?_⟩
  · intro hm
    simp [syncTrace, syncBody, h1, h2, h3, h4, hm, List.countP_append,
      List.countP_cons, isCreateEvt, attachLoop_no_create]
  · intro hm
    by_cases hc : env.createResult
    · simp [syncTrace, syncBody, h1, h2, h3, h4, hm, hc, List.countP_append,
        List.countP_cons, isCreateEvt, attachLoop_no_create]
    · simp [syncTrace, syncBody, h1, h2, h3, h4, hm, hc, List.countP_cons, isCreateEvt]
  · intro hm hc
    constructor
    · simp [sync_playlist, syncBody, h1, h2, h3, h4, hm, hc]
    · simp [syncTrace, syncBody, h1, h2, h3, h4, hm, hc, List.countP_cons, isAttachEvt]

/-- Witness for C5: the target name is already listed, so no creation call
appears in the trace. -/
theorem sync_no_recreate_existing_witness :
    (syncTrace envA none).countP isCreateEvt = 0 :=
  (sync_no_recreate_existing envA none rfl rfl rfl rfl).1 (by decide)

/-- C9: the body of `sync_playlist` raises exactly when one of its setup
calls raises (the Spotify info fetch, the Spotify track fetch, or the
browser start-up) — a mid-loop per-track raise is absorbed by the inner
handler — and whenever the body raises, the outer handler catches it and
`sync_playlist` returns `false` instead of propagating. -/
theorem sync_playlist_catches_raises :
    ∀ (env : SyncEnv) (t : Option String),
      ((syncBody env t).2 = Except.error () ↔
        (env.infoRaises = true ∨ env.tracksRaises = true ∨
          env.browserStartRaises = true)) ∧
      ((syncBody env t).2 = Except.error () → sync_playlist env t = false) := by
  intro env t
  constructor
  · cases h1 : env.infoRaises <;> cases h2 : env.tracksRaises <;>
      cases h3 : env.browserStartRaises <;> simp [syncBody, h1, h2, h3]
    by_cases hl : env.loginResult = false
    · simp [hl]
    · by_cases hm : resolveTarget t env.infoName ∈ env.existingPlaylists
      · simp [hl, hm]
      · by_cases hc : env.createResult <;> simp [hl, hm, hc]
  · intro h
    simp [sync_playlist, h]

/-- Witness for C9: a raising Spotify info fetch is caught and the sync
returns `false`. -/
theorem sync_playlist_catches_raises_witness :
    sync_playlist { envA with infoRaises := true } none = false :=
  (sync_playlist_catches_raises { envA with infoRaises := true } none).2 rfl

/-- C10: the body of `preview_sync` raises exactly when the playlist-info
fetch or the track fetch raises, and whenever it raises the handler catches
it and `preview_sync` returns the pair of the empty dictionary and the empty
list instead of propagating. -/
theorem preview_sync_empty_on_raise :
    ∀ env : SyncEnv,
      (previewBody env = Except.error () ↔
        (env.infoRaises = true ∨ env.tracksRaises = true)) ∧
      (previewBody env = Except.error () → preview_sync env = ([], [])) := by
  intro env
  constructor
  · cases h1 : env.infoRaises <;> cases h2 : env.tracksRaises <;>
      simp [previewBody, h1, h2]
  · intro h
    simp [preview_sync, h]

/-- Witness for C10: a raising track fetch yields the empty pair. -/
theorem preview_sync_empty_on_raise_witness :
    preview_sync { envA with tracksRaises := true } = ([], []) :=
  (preview_sync_empty_on_raise { envA with tracksRaises := true }).2 rfl
